import Mathlib

/-!
# Verification of the fabric kernel's boot-time memory subsystem

This file gives a shallow embedding, in Lean, of the core data structures and
operations of the fabric exokernel (bump allocator, epoch mutex, four-level
page tables, physical page tracker, and the memory/framebuffer system call
handlers), translated from the Rust sources under `src/`, and proves or
refutes the specification claims about them.

Machine integers (`usize`/`u64`) are modelled as `Nat`, with wrapping made
explicit (`% 2^64`) where the source relies on it.  Fallible operations
return `Option` or `Except`.  Page tables, which the source links through
physical addresses and the higher-half direct map, are modelled as a
four-level tree (`L4T → L3 → L2 → L1`); a directory entry stores its flag
bits and its child table, a leaf entry stores the raw 64-bit value the
source writes.  Walking *into* a huge/leaf entry as if it were a directory
is undefined behaviour in the source (it reinterprets mapped page memory as
a page table); the embedding surfaces that case as the distinguished error
`MapErr.nonTable`.
-/

namespace Fabric

/-- `2^64`, the modulus of the machine word. -/
def W : Nat := 2 ^ 64

/-- `PAGE_SIZE` from `mem/mod.rs`. -/
def PAGE_SIZE : Nat := 4096

/-- `USER_TOP` from `mem/mod.rs`. -/
def USER_TOP : Nat := 0x00007FFFFFFFFFFF

/-- `HHDM_OFFSET` from `mem/mod.rs`. -/
def HHDM_OFFSET : Nat := 0xFFFF800000000000

/-- `ONE_GIB` from `cpu/paging.rs`. -/
def ONE_GIB : Nat := 1024 * 1024 * 1024

/-- `TWO_MIB` from `cpu/paging.rs`. -/
def TWO_MIB : Nat := 1024 * 1024 * 2

/-- `FOUR_KIB` from `cpu/paging.rs`. -/
def FOUR_KIB : Nat := 1024 * 4

namespace PageFlags

/-! Bits of `PageFlags` from `raw.rs`. -/

def PRESENT : Nat := 1 <<< 0
def WRITABLE : Nat := 1 <<< 1
def USER : Nat := 1 <<< 2
def WRITE_THROUGH : Nat := 1 <<< 3
def DISABLE_CACHE : Nat := 1 <<< 4
def ACCESSED : Nat := 1 <<< 5
def DIRTY : Nat := 1 <<< 6
def HUGE : Nat := 1 <<< 7
def GLOBAL : Nat := 1 <<< 8
def NO_EXECUTE : Nat := 1 <<< 63

end PageFlags

/-- `OR_FLAGS` from `fuse_flags` in `cpu/paging.rs`. -/
def OR_FLAGS : Nat :=
  PageFlags.DIRTY ||| PageFlags.PRESENT ||| PageFlags.WRITABLE ||| PageFlags.USER

/-- `AND_FLAGS` from `fuse_flags` in `cpu/paging.rs`. -/
def AND_FLAGS : Nat :=
  PageFlags.DISABLE_CACHE ||| PageFlags.GLOBAL ||| PageFlags.NO_EXECUTE |||
    PageFlags.WRITE_THROUGH

/-- `PRESERVED_BITS` from `fuse_flags` in `cpu/paging.rs`. -/
def PRESERVED_BITS : Nat := 0x3FF0FFFFFFFFFE00 ||| PageFlags.ACCESSED

/-- `fuse_flags` from `cpu/paging.rs`: bits in `OR_FLAGS` accumulate, bits in
`AND_FLAGS` are intersected, `PRESERVED_BITS` (address bits and `ACCESSED`)
are taken from the existing entry `a`. -/
def fuse_flags (a b : Nat) : Nat :=
  (a &&& PRESERVED_BITS) ||| (a &&& OR_FLAGS) ||| (b &&& OR_FLAGS) |||
    ((a &&& AND_FLAGS) &&& (b &&& AND_FLAGS))

/-- The physical-address field of a page-table entry, `0x0FFFFFFF_FFFFF000`
(`cpu/paging.rs`). -/
def ADDR_MASK : Nat := 0x0FFFFFFFFFFFF000

/-! ## Virtual-address index extraction (`map_4kib` and friends) -/

/-- `(virt >> 39) & 0o777` — the L4 table index of a virtual address. -/
def l4Idx (v : Nat) : Nat := (v >>> 39) &&& 0o777

/-- `(virt >> 30) & 0o777` — the L3 table index of a virtual address. -/
def l3Idx (v : Nat) : Nat := (v >>> 30) &&& 0o777

/-- `(virt >> 21) & 0o777` — the L2 table index of a virtual address. -/
def l2Idx (v : Nat) : Nat := (v >>> 21) &&& 0o777

/-- `(virt >> 12) & 0o777` — the L1 table index of a virtual address. -/
def l1Idx (v : Nat) : Nat := (v >>> 12) &&& 0o777

theorem l4Idx_eq (v : Nat) : l4Idx v = v / 2 ^ 39 % 512 := by
  rw [l4Idx, Nat.shiftRight_eq_div_pow]
  have h : (0o777 : Nat) = 2 ^ 9 - 1 := by norm_num
  rw [h, Nat.and_pow_two_sub_one_eq_mod]

theorem l3Idx_eq (v : Nat) : l3Idx v = v / 2 ^ 30 % 512 := by
  rw [l3Idx, Nat.shiftRight_eq_div_pow]
  have h : (0o777 : Nat) = 2 ^ 9 - 1 := by norm_num
  rw [h, Nat.and_pow_two_sub_one_eq_mod]

theorem l2Idx_eq (v : Nat) : l2Idx v = v / 2 ^ 21 % 512 := by
  rw [l2Idx, Nat.shiftRight_eq_div_pow]
  have h : (0o777 : Nat) = 2 ^ 9 - 1 := by norm_num
  rw [h, Nat.and_pow_two_sub_one_eq_mod]

theorem l1Idx_eq (v : Nat) : l1Idx v = v / 2 ^ 12 % 512 := by
  rw [l1Idx, Nat.shiftRight_eq_div_pow]
  have h : (0o777 : Nat) = 2 ^ 9 - 1 := by norm_num
  rw [h, Nat.and_pow_two_sub_one_eq_mod]

/-- Bitwise-or of naturals is zero only when both operands are. -/
theorem lor_eq_zero {a b : Nat} (h : a ||| b = 0) : a = 0 ∧ b = 0 := by
  constructor <;>
  · apply Nat.eq_of_testBit_eq
    intro i
    have hb := congrArg (Nat.testBit · i) h
    simp only [Nat.testBit_lor, Nat.zero_testBit] at hb
    rcases Bool.or_eq_false_iff.mp hb with ⟨h1, h2⟩
    simp [h1, h2]

/-! ## Page tables (`cpu/paging.rs`)

A `PageTable` is 512 raw 64-bit entries; tables are linked through physical
addresses translated via the direct map.  The embedding represents the
linked structure directly as a four-level tree.  A directory entry stores
its flag bits together with its child table (the physical-address bits of
the raw entry are the identity of the child, which the tree structure
carries); a leaf entry (an L1 entry, or a `HUGE` entry at L2/L3) stores the
raw 64-bit value the source writes.  An all-zero raw entry is `absent`.
-/

/-- An L1 page table: 512 raw leaf entries (index outside `0..511` is never
used). -/
structure L1 where
  entries : Nat → Nat

/-- An entry of an L2 table: absent (raw 0), a directory entry pointing to an
L1 table, or a `HUGE` 2 MiB leaf with raw value `raw`. -/
inductive L2E where
  | absent
  | table (flags : Nat) (child : L1)
  | page (raw : Nat)

structure L2 where
  entries : Nat → L2E

/-- An entry of an L3 table: absent, a directory entry pointing to an L2
table, or a `HUGE` 1 GiB leaf. -/
inductive L3E where
  | absent
  | table (flags : Nat) (child : L2)
  | page (raw : Nat)

structure L3 where
  entries : Nat → L3E

/-- An entry of an L4 table: absent or a directory entry pointing to an L3
table (the code never writes a leaf at L4). -/
inductive L4E where
  | absent
  | table (flags : Nat) (child : L3)

structure L4T where
  entries : Nat → L4E

def L1.empty : L1 := ⟨fun _ => 0⟩
def L2.empty : L2 := ⟨fun _ => .absent⟩
def L3.empty : L3 := ⟨fun _ => .absent⟩
def L4T.empty : L4T := ⟨fun _ => .absent⟩

def L1.set (t : L1) (i v : Nat) : L1 := ⟨fun j => if j = i then v else t.entries j⟩
def L2.set (t : L2) (i : Nat) (e : L2E) : L2 := ⟨fun j => if j = i then e else t.entries j⟩
def L3.set (t : L3) (i : Nat) (e : L3E) : L3 := ⟨fun j => if j = i then e else t.entries j⟩
def L4T.set (t : L4T) (i : Nat) (e : L4E) : L4T := ⟨fun j => if j = i then e else t.entries j⟩

/-- Failure modes of the mapping functions.  `oom` is `Err(OutOfMemory)` from
the page allocator.  `nonTable` marks the case where
`PageTable::directory_entry_mut` is reached with a non-zero entry that is
not a page table (a huge leaf): the source then reinterprets mapped page
memory as a page table, which is undefined behaviour; the embedding makes
that case explicit instead. -/
inductive MapErr where
  | oom
  | nonTable
  deriving Repr, DecidableEq

/-- `PageTable::directory_entry_mut` on an L4 entry: if the entry is zero,
allocate a page (threading the allocator state `s`), zero it, and install
`page | (PRESENT | parent_flags)`; otherwise fuse `parent_flags` into the
existing entry and descend.  Returns the (new) flag bits of the entry, the
child to descend into, and the allocator state. -/
def dirL4 {σ : Type} (alloc : σ → Option (Nat × σ)) (t : L4T) (i flags : Nat)
    (s : σ) : Except MapErr ((Nat × L3) × σ) :=
  match t.entries i with
  | .absent =>
    match alloc s with
    | none => .error .oom
    | some (_, s1) => .ok ((PageFlags.PRESENT ||| flags, L3.empty), s1)
  | .table f c => .ok ((fuse_flags f flags, c), s)

/-- `PageTable::directory_entry_mut` on an L3 entry (see `dirL4`); a huge
leaf in the walk path is outside the embedding's domain (`nonTable`). -/
def dirL3 {σ : Type} (alloc : σ → Option (Nat × σ)) (t : L3) (i flags : Nat)
    (s : σ) : Except MapErr ((Nat × L2) × σ) :=
  match t.entries i with
  | .absent =>
    match alloc s with
    | none => .error .oom
    | some (_, s1) => .ok ((PageFlags.PRESENT ||| flags, L2.empty), s1)
  | .table f c => .ok ((fuse_flags f flags, c), s)
  | .page _ => .error .nonTable

/-- `PageTable::directory_entry_mut` on an L2 entry (see `dirL3`). -/
def dirL2 {σ : Type} (alloc : σ → Option (Nat × σ)) (t : L2) (i flags : Nat)
    (s : σ) : Except MapErr ((Nat × L1) × σ) :=
  match t.entries i with
  | .absent =>
    match alloc s with
    | none => .error .oom
    | some (_, s1) => .ok ((PageFlags.PRESENT ||| flags, L1.empty), s1)
  | .table f c => .ok ((fuse_flags f flags, c), s)
  | .page _ => .error .nonTable

/-- `map_4kib` from `cpu/paging.rs`: walk L4→L3→L2→L1 through
`directory_entry_mut`, then write the leaf
`phys | (PRESENT | flags).bits()`. -/
def map_4kib {σ : Type} (alloc : σ → Option (Nat × σ)) (l4 : L4T)
    (virt phys flags : Nat) (s : σ) : Except MapErr (L4T × σ) :=
  match dirL4 alloc l4 (l4Idx virt) flags s with
  | .error e => .error e
  | .ok ((f3, c3), s1) =>
    match dirL3 alloc c3 (l3Idx virt) flags s1 with
    | .error e => .error e
    | .ok ((f2, c2), s2) =>
      match dirL2 alloc c2 (l2Idx virt) flags s2 with
      | .error e => .error e
      | .ok ((f1, c1), s3) =>
        let c1n := c1.set (l1Idx virt) (phys ||| (PageFlags.PRESENT ||| flags))
        .ok (l4.set (l4Idx virt)
              (.table f3 (c3.set (l3Idx virt)
                (.table f2 (c2.set (l2Idx virt) (.table f1 c1n))))), s3)

/-- `map_2mib` from `cpu/paging.rs`: walk L4→L3, then write the L2 leaf
`phys | (PRESENT | HUGE | flags).bits()`. -/
def map_2mib {σ : Type} (alloc : σ → Option (Nat × σ)) (l4 : L4T)
    (virt phys flags : Nat) (s : σ) : Except MapErr (L4T × σ) :=
  match dirL4 alloc l4 (l4Idx virt) flags s with
  | .error e => .error e
  | .ok ((f3, c3), s1) =>
    match dirL3 alloc c3 (l3Idx virt) flags s1 with
    | .error e => .error e
    | .ok ((f2, c2), s2) =>
      let c2n := c2.set (l2Idx virt)
        (.page (phys ||| (PageFlags.PRESENT ||| PageFlags.HUGE ||| flags)))
      .ok (l4.set (l4Idx virt) (.table f3 (c3.set (l3Idx virt) (.table f2 c2n))), s2)

/-- `map_1gib` from `cpu/paging.rs`: walk L4, then write the L3 leaf
`phys | (PRESENT | HUGE | flags).bits()`. -/
def map_1gib {σ : Type} (alloc : σ → Option (Nat × σ)) (l4 : L4T)
    (virt phys flags : Nat) (s : σ) : Except MapErr (L4T × σ) :=
  match dirL4 alloc l4 (l4Idx virt) flags s with
  | .error e => .error e
  | .ok ((f3, c3), s1) =>
    let c3n := c3.set (l3Idx virt)
      (.page (phys ||| (PageFlags.PRESENT ||| PageFlags.HUGE ||| flags)))
    .ok (l4.set (l4Idx virt) (.table f3 c3n), s1)

/-- `unmap_4kib` from `cpu/paging.rs`: walk down through
`try_directory_entry_mut` (absent, non-`PRESENT` or `HUGE` entries stop the
walk with `Err`, modelled as `none`); if the L1 entry has `PRESENT` clear,
`Err`; otherwise clear the L1 entry to 0. -/
def unmap_4kib (l4 : L4T) (virt : Nat) : Option L4T :=
  match l4.entries (l4Idx virt) with
  | .absent => none
  | .table f3 c3 =>
    if f3 &&& PageFlags.PRESENT = 0 then none
    else if f3 &&& PageFlags.HUGE ≠ 0 then none
    else
      match c3.entries (l3Idx virt) with
      | .absent => none
      | .page _ => none
      | .table f2 c2 =>
        if f2 &&& PageFlags.PRESENT = 0 then none
        else if f2 &&& PageFlags.HUGE ≠ 0 then none
        else
          match c2.entries (l2Idx virt) with
          | .absent => none
          | .page _ => none
          | .table f1 c1 =>
            if f1 &&& PageFlags.PRESENT = 0 then none
            else if f1 &&& PageFlags.HUGE ≠ 0 then none
            else if c1.entries (l1Idx virt) &&& PageFlags.PRESENT = 0 then none
            else
              some (l4.set (l4Idx virt)
                (.table f3 (c3.set (l3Idx virt)
                  (.table f2 (c2.set (l2Idx virt)
                    (.table f1 (c1.set (l1Idx virt) 0)))))))

/-- The loop body of `create_direct_map` from `cpu/paging.rs`, entered with
`size ≠ 0`: at each step the largest granularity to which `phys`, `virt` and
the remaining `size` are all aligned is chosen (1 GiB, then 2 MiB, then
4 KiB); in the 4 KiB branch the loop exits after mapping when
`size <= FOUR_KIB`. -/
def cdmLoop {σ : Type} (alloc : σ → Option (Nat × σ)) (l4 : L4T)
    (phys virt size flags : Nat) (s : σ) : Except MapErr (L4T × σ) :=
  if h1 : ONE_GIB ≤ size ∧ phys % ONE_GIB = 0 ∧ virt % ONE_GIB = 0 then
    match map_1gib alloc l4 virt phys flags s with
    | .error e => .error e
    | .ok (l4n, s1) =>
      cdmLoop alloc l4n (phys + ONE_GIB) (virt + ONE_GIB) (size - ONE_GIB) flags s1
  else if h2 : TWO_MIB ≤ size ∧ phys % TWO_MIB = 0 ∧ virt % TWO_MIB = 0 then
    match map_2mib alloc l4 virt phys flags s with
    | .error e => .error e
    | .ok (l4n, s1) =>
      cdmLoop alloc l4n (phys + TWO_MIB) (virt + TWO_MIB) (size - TWO_MIB) flags s1
  else
    match map_4kib alloc l4 virt phys flags s with
    | .error e => .error e
    | .ok (l4n, s1) =>
      if h3 : size ≤ FOUR_KIB then .ok (l4n, s1)
      else
        cdmLoop alloc l4n (phys + FOUR_KIB) (virt + FOUR_KIB) (size - FOUR_KIB) flags s1
termination_by size
decreasing_by
  · simp only [ONE_GIB] at h1 ⊢; omega
  · simp only [TWO_MIB] at h2 ⊢; omega
  · simp only [FOUR_KIB] at h3 ⊢; omega

/-- `create_direct_map` from `cpu/paging.rs`: returns immediately when
`size == 0`, otherwise runs the granularity-choosing loop. -/
def create_direct_map {σ : Type} (alloc : σ → Option (Nat × σ)) (l4 : L4T)
    (phys virt size flags : Nat) (s : σ) : Except MapErr (L4T × σ) :=
  if size = 0 then .ok (l4, s) else cdmLoop alloc l4 phys virt size flags s

/-- `n` successive calls to `map_4kib` on consecutive 4 KiB pages with the
same flags — the reference behaviour the spec compares `map_range` against. -/
def mapPages {σ : Type} (alloc : σ → Option (Nat × σ)) (l4 : L4T)
    (phys virt n flags : Nat) (s : σ) : Except MapErr (L4T × σ) :=
  match n with
  | 0 => .ok (l4, s)
  | n + 1 =>
    match map_4kib alloc l4 virt phys flags s with
    | .error e => .error e
    | .ok (l4n, s1) =>
      mapPages alloc l4n (phys + FOUR_KIB) (virt + FOUR_KIB) n flags s1

/-- The physical-address field of a 1 GiB leaf entry (bits 30..51). -/
def MASK_1G : Nat := 0x0FFFFFFFC0000000

/-- The physical-address field of a 2 MiB leaf entry (bits 21..51). -/
def MASK_2M : Nat := 0x0FFFFFFFFFE00000

/-- The hardware translation of a virtual byte address through an L1 table:
the walk requires `PRESENT`, and the translated physical byte is the leaf's
address field plus the page offset. -/
def translate1 (t : L1) (v : Nat) : Option Nat :=
  let raw := t.entries (l1Idx v)
  if raw &&& PageFlags.PRESENT = 0 then none
  else some ((raw &&& ADDR_MASK) + v % FOUR_KIB)

/-- The hardware translation through an L2 table: a `page` entry is a 2 MiB
leaf. -/
def translate2 (t : L2) (v : Nat) : Option Nat :=
  match t.entries (l2Idx v) with
  | .absent => none
  | .page raw =>
    if raw &&& PageFlags.PRESENT = 0 then none
    else some ((raw &&& MASK_2M) + v % TWO_MIB)
  | .table f c =>
    if f &&& PageFlags.PRESENT = 0 then none else translate1 c v

/-- The hardware translation through an L3 table: a `page` entry is a 1 GiB
leaf. -/
def translate3 (t : L3) (v : Nat) : Option Nat :=
  match t.entries (l3Idx v) with
  | .absent => none
  | .page raw =>
    if raw &&& PageFlags.PRESENT = 0 then none
    else some ((raw &&& MASK_1G) + v % ONE_GIB)
  | .table f c =>
    if f &&& PageFlags.PRESENT = 0 then none else translate2 c v

/-- The virtual-byte-to-physical-byte mapping relation induced by an L4
table: the four-level hardware walk. -/
def translate (l4 : L4T) (v : Nat) : Option Nat :=
  match l4.entries (l4Idx v) with
  | .absent => none
  | .table f c =>
    if f &&& PageFlags.PRESENT = 0 then none else translate3 c v

/-! ## Bump allocator (`mem/boot_allocator.rs`) -/

structure BootAllocator where
  start : Nat
  stop : Nat
  deriving Repr, DecidableEq

namespace BootAllocator

/-- `BootAllocator::new`. -/
def new (base length : Nat) : BootAllocator := ⟨base, base + length⟩

/-- `BootAllocator::remaining_length`. -/
def remaining_length (a : BootAllocator) : Nat := a.stop - a.start

/-- `BootAllocator::peek`. -/
def peek (a : BootAllocator) : Nat := a.start

/-- `BootAllocator::allocate`.  `align` must be a power of two.  The source
computes `ret = (start + align_mask) & !align_mask`; the 64-bit complement
`!align_mask` is `W - 1 - align_mask`.  Returns `none` on `OutOfMemory`,
leaving the allocator unchanged. -/
def allocate (a : BootAllocator) (size align : Nat) : Option (Nat × BootAllocator) :=
  let align_mask := align - 1
  let ret := (a.start + align_mask) &&& (W - 1 - align_mask)
  if ret + size - a.start > a.remaining_length then
    none
  else
    some (ret, { a with start := ret + size })

end BootAllocator

/-- The state of the bump allocator after the three allocations of the C6
scenario: `new(0x100000, 0x8000)`, then `allocate(0x1000, 0x1000)`,
`allocate(0x2000, 0x1000)`, `allocate(0x6000, 0x1000)` in order, each
applied to the state left by the previous call (a failed call leaves the
state unchanged, per the source). -/
def c6Scenario : Option Nat × Option Nat × Option Nat × BootAllocator :=
  let a0 := BootAllocator.new 0x100000 0x8000
  match a0.allocate 0x1000 0x1000 with
  | none => (none, none, none, a0)
  | some (r1, a1) =>
    match a1.allocate 0x2000 0x1000 with
    | none => (some r1, none, none, a1)
    | some (r2, a2) =>
      match a2.allocate 0x6000 0x1000 with
      | none => (some r1, some r2, none, a2)
      | some (r3, a3) => (some r1, some r2, some r3, a3)

/-! ## Epoch mutex (`utility/epoch_mutex.rs`)

The mutex is a single `AtomicUsize` word, modelled as a `Nat` below `W`.
-/

namespace RawEpochMutex

/-- `RawEpochMutex::is_locked` — `current_epoch() & 1 == 1`. -/
def is_locked (v : Nat) : Bool := v &&& 1 = 1

/-- The body of `RawEpochMutex::lock` when no other thread modifies the word
during the call: `lock` first reads `old = self.current_epoch()` and
immediately attempts `compare_exchange_weak(old, old.wrapping_add(1))` —
there is no check that the observed `old` is even before this first
attempt (the `while self.is_locked()` spin runs only *between* failed
attempts).  Without interference the exchange succeeds on the first try,
so the call installs `old + 1` and returns. -/
def lock_uncontended (v : Nat) : Nat := (v + 1) % W

/-- `RawEpochMutex::unlock` — `fetch_add(1, Release)`. -/
def unlock (v : Nat) : Nat := (v + 1) % W

end RawEpochMutex

/-! ## Kernel image mapping (`create_kernel_address_space`, `cpu/paging.rs`)

`create_kernel_address_space` computes the size and physical base of the
kernel-image mapping as:

```rust
let mut kernel_size = crate::x86_64::image_end() - crate::x86_64::image_begin();
kernel_size += kernel_start & !0xFFF;
kernel_start = crate::utility::align_page_down(kernel_start);
```

and then maps physical `[kernel_start, kernel_start + kernel_size)` at
`image_begin()` with `WRITABLE | GLOBAL`.
-/

/-- `align_page_down` from `utility/mod.rs`: `x & !0xfff` (64-bit complement). -/
def align_page_down (x : Nat) : Nat := x &&& (W - 1 - 0xFFF)

/-- The `(phys, size)` pair of the kernel-image `create_direct_map` call in
`create_kernel_address_space`: physical base `align_page_down kernel_start`
and size `(image_end - image_begin) + (kernel_start & !0xFFF)`. -/
def kernelImageMapping (image_begin image_end kernel_start : Nat) : Nat × Nat :=
  (align_page_down kernel_start,
   image_end - image_begin + (kernel_start &&& (W - 1 - 0xFFF)))

/-! ## Framebuffer filtering and public-data initialization
(`boot/limine/mod.rs`, `public.rs`, `lib/src/arch/x86_64/public/*`) -/

/-- `FRAMEBUFFER_RGB` from `boot/limine/raw.rs`. -/
def FRAMEBUFFER_RGB : Nat := 1

/-- A bootloader-supplied framebuffer (`raw::Framebuffer`, the fields the
boot driver reads). -/
structure RawFramebuffer where
  address : Nat
  width : Nat
  height : Nat
  pitch : Nat
  bpp : Nat
  memory_model : Nat
  deriving Repr, DecidableEq

/-- `ColorMode` from `lib/src/arch/x86_64/public/framebuffer.rs`. -/
inductive ColorMode where
  | Rgb24
  | Rgb32
  deriving Repr, DecidableEq

/-- `Framebuffer` from `lib/src/arch/x86_64/public/framebuffer.rs` (the
`_reserved` padding is omitted; `owned_by` is the atomic ownership word). -/
structure Framebuffer where
  physical_address : Nat
  width : Nat
  height : Nat
  pitch : Nat
  color_mode : ColorMode
  owned_by : Nat
  deriving Repr, DecidableEq

/-- `Framebuffer::size_in_bytes` — `pitch * height`. -/
def Framebuffer.size_in_bytes (fb : Framebuffer) : Nat := fb.pitch * fb.height

/-- `is_framebuffer_supported` from `boot/limine/mod.rs`: RGB memory model
with 24 or 32 bits per pixel. -/
def is_framebuffer_supported (fb : RawFramebuffer) : Bool :=
  (fb.memory_model = FRAMEBUFFER_RGB && fb.bpp = 24) ||
    (fb.memory_model = FRAMEBUFFER_RGB && fb.bpp = 32)

/-- `try_convert_framebuffer` from `boot/limine/mod.rs`. -/
def try_convert_framebuffer (fb : RawFramebuffer) (hhdm_offset : Nat) :
    Option Framebuffer :=
  let mode : Option ColorMode :=
    if fb.memory_model = FRAMEBUFFER_RGB ∧ fb.bpp = 24 then some .Rgb24
    else if fb.memory_model = FRAMEBUFFER_RGB ∧ fb.bpp = 32 then some .Rgb32
    else none
  match mode with
  | none => none
  | some color_mode =>
    some { width := fb.width
           height := fb.height
           pitch := fb.pitch
           color_mode := color_mode
           physical_address := fb.address - hhdm_offset
           owned_by := 0 }

/-- `supported_framebuffer_count` as computed by the loop in `entry_point`
(`boot/limine/mod.rs`): the number of supported framebuffers. -/
def supported_framebuffer_count (fbs : List RawFramebuffer) : Nat :=
  (fbs.filter is_framebuffer_supported).length

/-- `PublicData` root (`lib/src/arch/x86_64/public/mod.rs`): the
`framebuffers` pointer is modelled by the list of records written behind
it. -/
structure PublicDataModel where
  framebuffers : List Framebuffer
  framebuffer_count : Nat
  deriving Repr, DecidableEq

/-- `PublicDataLayout::compute` from `public.rs`: root at offset 0,
framebuffers directly after, `size_of::<PublicData>() = 16` and
`size_of::<Framebuffer>() = 48`. -/
def PublicDataLayout.compute (framebuffer_count : Nat) : Nat × Nat × Nat :=
  (16 + 48 * framebuffer_count, 0, 16)

/-- The public-data initialization performed by `entry_point`
(`boot/limine/mod.rs` lines 266–299): the layout is sized for
`supported_framebuffer_count`, the framebuffer array receives exactly the
convertible (kept) framebuffers in order, and the root's
`framebuffer_count` field is written as `framebuffers.len()` — the length
of the *bootloader's* framebuffer list. -/
def publicDataInit (fbs : List RawFramebuffer) (hhdm_offset : Nat) :
    Nat × PublicDataModel :=
  let layout := PublicDataLayout.compute (supported_framebuffer_count fbs)
  (layout.1,
   { framebuffers := fbs.filterMap (try_convert_framebuffer · hhdm_offset)
     framebuffer_count := fbs.length })

/-! ## SysResult (`lib/src/sys_result.rs`)

A `SysResult` is a machine word; values at or above `FIRST_ERROR` are
errors. -/

namespace SysRes

/-- `SysResult::FIRST_ERROR` — `-4096isize as usize`. -/
def FIRST_ERROR : Nat := W - 4096

def INVALID_VALUE : Nat := FIRST_ERROR + 0
def INVALID_PROCESS_ID : Nat := FIRST_ERROR + 1
def OUT_OF_MEMORY : Nat := FIRST_ERROR + 2
def CONFLICT : Nat := FIRST_ERROR + 3

/-- `SysResult::success` — the identity on values below `FIRST_ERROR`. -/
def success (v : Nat) : Nat := v

end SysRes

/-! ## Physical page tracker (`mem/memory_tracker.rs`) -/

/-- `MemoryTracker`: `free_pages` models the live prefix (of length
`free_pages_len`) of the backing array of free page indices; the array cell
at index `free_pages_len - 1` — the next one `allocate` pops — is the head
of the list. -/
structure MemoryTracker where
  page_count : Nat
  free_pages : List Nat
  deriving Repr, DecidableEq

namespace MemoryTracker

/-- `MemoryTracker::mark_as_unused`: write `page / PAGE_SIZE` at
`free_pages[free_pages_len]` and increment `free_pages_len`. -/
def mark_as_unused (t : MemoryTracker) (page : Nat) : MemoryTracker :=
  { t with free_pages := page / PAGE_SIZE :: t.free_pages }

/-- `MemoryTracker::allocate`: if `free_pages_len == 0`, `Err(OutOfMemory)`
(`none`); otherwise decrement `free_pages_len` and return the popped index
times `PAGE_SIZE`. -/
def allocate (t : MemoryTracker) : Option (Nat × MemoryTracker) :=
  match t.free_pages with
  | [] => none
  | i :: rest => some (i * PAGE_SIZE, { t with free_pages := rest })

end MemoryTracker

/-! ## Memory system calls (`syscall/handlers.rs`)

The state a memory system call reads and writes: the current process's L4
table (`CURRENT_PROCESS.address_space`, reached through the direct map) and
the global memory tracker (locked around the operations).  The handlers
return the `SysResult` and the updated state; `none` marks a run that left
the embedding's domain (`MapErr.nonTable`: the source would have
reinterpreted mapped page memory as a page table).  On `OutOfMemory` inside
`map_4kib` the source retains directory tables it had already installed
during the failed walk; the embedding returns the state from before that
final partial walk (no claim exercises this path). -/

structure KState where
  l4 : L4T
  tracker : MemoryTracker

/-- The mapping loop of `map_memory`: while `length != 0`, pop one physical
page from the tracker, `map_4kib` it at the next virtual address (further
pages for missing directory levels come from the same locked tracker), and
advance by `PAGE_SIZE`.  The handler has already checked
`length % PAGE_SIZE == 0`, so the loop runs exactly `length / PAGE_SIZE`
times; the embedding recurses on that iteration count `pages`. -/
def mapMemoryLoop (st : KState) (virtual_address page_flags : Nat) :
    (pages : Nat) → Option (Nat × KState)
  | 0 => some (SysRes.success 0, st)
  | pages + 1 =>
    match st.tracker.allocate with
    | none => some (SysRes.OUT_OF_MEMORY, st)
    | some (phys, tr1) =>
      match map_4kib MemoryTracker.allocate st.l4 virtual_address phys page_flags tr1 with
      | .error .nonTable => none
      | .error .oom => some (SysRes.OUT_OF_MEMORY, { st with tracker := tr1 })
      | .ok (l4n, tr2) =>
        mapMemoryLoop ⟨l4n, tr2⟩ (virtual_address + PAGE_SIZE) page_flags pages

/-- `map_memory` from `syscall/handlers.rs`: validate the arguments
(`process_id == 0`, page-aligned `virtual_address` and `length`, saturating
`virtual_address + length` within `USER_TOP`, `flags` a subset of
`WRITABLE | EXECUTABLE`), build the CPU page flags (`USER` always,
`WRITABLE` iff requested, `NO_EXECUTE` iff `EXECUTABLE` not requested), and
run the mapping loop. -/
def map_memory (process_id virtual_address length flags : Nat) (st : KState) :
    Option (Nat × KState) :=
  if process_id ≠ 0 then some (SysRes.INVALID_PROCESS_ID, st)
  else if virtual_address % PAGE_SIZE ≠ 0 ∨ length % PAGE_SIZE ≠ 0 then
    some (SysRes.INVALID_VALUE, st)
  else if min (virtual_address + length) (W - 1) > USER_TOP then
    some (SysRes.INVALID_VALUE, st)
  else if flags &&& (W - 1 - 3) ≠ 0 then some (SysRes.INVALID_VALUE, st)
  else
    let page_flags :=
      PageFlags.USER |||
        (if flags &&& 1 ≠ 0 then PageFlags.WRITABLE else 0) |||
        (if flags &&& 2 = 0 then PageFlags.NO_EXECUTE else 0)
    mapMemoryLoop st virtual_address page_flags (length / PAGE_SIZE)

/-- The unmapping loop of `unmap_memory`: while `length != 0`, attempt
`unmap_4kib`; on success (`was_used`) the handler calls
`memory_tracker.lock().mark_as_unused(virtual_address)` — passing the
*virtual* address being unmapped.  Then advance by `PAGE_SIZE`.  The
handler has already checked `length % PAGE_SIZE == 0`, so the loop runs
exactly `length / PAGE_SIZE` times; the embedding recurses on that
iteration count `pages`. -/
def unmapMemoryLoop (st : KState) (virtual_address : Nat) :
    (pages : Nat) → Nat × KState
  | 0 => (SysRes.success 0, st)
  | pages + 1 =>
    let st1 : KState :=
      match unmap_4kib st.l4 virtual_address with
      | some l4n => ⟨l4n, st.tracker.mark_as_unused virtual_address⟩
      | none => st
    unmapMemoryLoop st1 (virtual_address + PAGE_SIZE) pages

/-- `unmap_memory` from `syscall/handlers.rs`: validate as `map_memory`
(no flags), then run the unmapping loop. -/
def unmap_memory (process_id virtual_address length : Nat) (st : KState) :
    Nat × KState :=
  if process_id ≠ 0 then (SysRes.INVALID_PROCESS_ID, st)
  else if virtual_address % PAGE_SIZE ≠ 0 ∨ length % PAGE_SIZE ≠ 0 then
    (SysRes.INVALID_VALUE, st)
  else if min (virtual_address + length) (W - 1) > USER_TOP then
    (SysRes.INVALID_VALUE, st)
  else unmapMemoryLoop st virtual_address (length / PAGE_SIZE)

/-! ## Framebuffer system calls (`syscall/handlers.rs`) -/

/-- The state the framebuffer system calls see: the public region's
framebuffer array and the memory state. -/
structure FbKState where
  fbs : List Framebuffer
  kst : KState

/-- The mapping loop of `acquire_framebuffer`: map the framebuffer's byte
range (`size_in_bytes`, decremented by `PAGE_SIZE` per iteration) at `at`,
one 4 KiB page at a time, with `USER | WRITABLE | NO_EXECUTE`.  The
embedding recurses on the page count `pages = size / PAGE_SIZE` (for a
size that is not a page multiple, the source's final `size -= PAGE_SIZE`
underflows — a debug-build panic — which no claim exercises). -/
def acquireFbMapLoop (st : FbKState) (at_ addr : Nat) :
    (pages : Nat) → Option (Nat × FbKState)
  | 0 => some (SysRes.success 0, st)
  | pages + 1 =>
    match map_4kib MemoryTracker.allocate st.kst.l4 at_ addr
        (PageFlags.USER ||| PageFlags.WRITABLE ||| PageFlags.NO_EXECUTE)
        st.kst.tracker with
    | .error .nonTable => none
    | .error .oom => some (SysRes.OUT_OF_MEMORY, st)
    | .ok (l4n, tr1) =>
      acquireFbMapLoop { st with kst := ⟨l4n, tr1⟩ }
        (at_ + PAGE_SIZE) (addr + PAGE_SIZE) pages

/-- `acquire_framebuffer` from `syscall/handlers.rs`: `process_id` must be 0
(otherwise `INVALID_PROCESS_ID`); look up framebuffer `index`
(`INVALID_VALUE` if out of range); `compare_exchange(owned_by, 0,
process_id)` — on failure `CONFLICT`, on success the *`process_id`
argument* (necessarily 0 here) is stored into `owned_by`; then map the
framebuffer's bytes at `at`. -/
def acquire_framebuffer (process_id index at_ : Nat) (st : FbKState) :
    Option (Nat × FbKState) :=
  if process_id ≠ 0 then some (SysRes.INVALID_PROCESS_ID, st)
  else
    match st.fbs[index]? with
    | none => some (SysRes.INVALID_VALUE, st)
    | some fb =>
      if fb.owned_by ≠ 0 then some (SysRes.CONFLICT, st)
      else
        acquireFbMapLoop
          { st with fbs := st.fbs.set index { fb with owned_by := process_id } }
          at_ fb.physical_address (fb.size_in_bytes / PAGE_SIZE)

/-- `release_framebuffer` from `syscall/handlers.rs`: `process_id` must be 0;
look up framebuffer `index` (`INVALID_VALUE` if out of range);
`compare_exchange(owned_by, process_id, 0)` — `CONFLICT` on failure.  The
mapping is not torn down (`TODO` in the source). -/
def release_framebuffer (process_id index : Nat) (st : FbKState) :
    Nat × FbKState :=
  if process_id ≠ 0 then (SysRes.INVALID_PROCESS_ID, st)
  else
    match st.fbs[index]? with
    | none => (SysRes.INVALID_VALUE, st)
    | some fb =>
      if fb.owned_by ≠ process_id then (SysRes.CONFLICT, st)
      else (SysRes.success 0,
        { st with fbs := st.fbs.set index { fb with owned_by := 0 } })

/-! ## Theorems for claims C3, C4, C5, C6 -/

/-- C6 (counterexample): the spec's bump-allocator scenario fails on the code.
After `new(0x100000, 0x8000)`, `allocate(0x1000, 0x1000) = 0x100000` and
`allocate(0x2000, 0x1000) = 0x101000` consume `0x3000` bytes, and the failed
`allocate(0x6000, 0x1000)` leaves the state unchanged, so `remaining()` is
`0x5000`, not `0x7000` as the claim's conjunction demands. -/
theorem c6_counterexample :
    ¬ (c6Scenario.1 = some 0x100000 ∧ c6Scenario.2.1 = some 0x101000 ∧
       c6Scenario.2.2.1 = none ∧
       c6Scenario.2.2.2.remaining_length = 0x7000) := by decide

/-- C6 (amended): starting from `BumpAllocator::new(0x100000, 0x8000)`,
`allocate(0x1000, 0x1000)` returns `0x100000`; then `allocate(0x2000, 0x1000)`
returns `0x101000`; then `allocate(0x6000, 0x1000)` returns `OutOfMemory`;
and after these three calls `remaining()` equals `0x5000`. -/
theorem c6_scenario_amended :
    c6Scenario.1 = some 0x100000 ∧ c6Scenario.2.1 = some 0x101000 ∧
    c6Scenario.2.2.1 = none ∧
    c6Scenario.2.2.2.remaining_length = 0x5000 := by decide

/-- C3 (code evaluated at the failing input): with the epoch-mutex counter at
`1` (odd — the mutex is held by another context) and no interference, the
first compare-and-swap attempt of `lock()` is performed on the odd observed
value `1` and succeeds, so `lock` returns with the counter at `2` — even,
i.e. apparently unlocked — violating the claim that the CAS is attempted only
on even observed values and that the counter is odd while the lock is held. -/
theorem c3_lock_cas_on_odd_observed_value :
    RawEpochMutex.lock_uncontended 1 = 2 ∧
    RawEpochMutex.is_locked (RawEpochMutex.lock_uncontended 1) = false := by
  decide

/-- C4 (code evaluated at the failing input): for `kernel_phys_base =
0x200123` and an image spanning `0x5000` bytes, `create_kernel_address_space`
computes the mapped size as `(image_end - image_begin) + (kernel_start &
!0xFFF) = 0x5000 + 0x200000 = 0x205000`, adding the page-aligned-down *base*
instead of the claimed sub-page offset `kernel_phys_base % 4096 = 0x123`
(the physical base is aligned down to `0x200000` as claimed). -/
theorem c4_kernel_size_adds_aligned_base :
    (kernelImageMapping 0xFFFFFFFF80000000 0xFFFFFFFF80005000 0x200123).2
        = 0x205000 ∧
    (kernelImageMapping 0xFFFFFFFF80000000 0xFFFFFFFF80005000 0x200123).2
        ≠ 0x5000 + 0x200123 % 4096 ∧
    (kernelImageMapping 0xFFFFFFFF80000000 0xFFFFFFFF80005000 0x200123).1
        = 0x200000 := by decide

/-- Two bootloader framebuffers: one RGB with 32 bpp (kept) and one RGB with
16 bpp (dropped by the filter). -/
def c5Input : List RawFramebuffer :=
  [{ address := 0xFD000000, width := 640, height := 480, pitch := 2560,
     bpp := 32, memory_model := 1 },
   { address := 0xFE000000, width := 320, height := 200, pitch := 640,
     bpp := 16, memory_model := 1 }]

/-- C5 (code evaluated at the failing input): with one supported and one
unsupported bootloader framebuffer, the boot driver keeps exactly the one
supported entry and sizes the public region for one framebuffer, but writes
`framebuffer_count: framebuffers.len() = 2` — the total bootloader count, not
the kept count claimed by the spec. -/
theorem c5_framebuffer_count_mismatch :
    (publicDataInit c5Input 0).2.framebuffer_count = 2 ∧
    (publicDataInit c5Input 0).2.framebuffers =
      [{ physical_address := 0xFD000000, width := 640, height := 480,
         pitch := 2560, color_mode := .Rgb32, owned_by := 0 }] ∧
    (publicDataInit c5Input 0).1 = 16 + 48 * 1 ∧
    (publicDataInit c5Input 0).2.framebuffer_count
      ≠ supported_framebuffer_count c5Input := by decide

/-! ## Theorems for claims C1, C2, C9 -/

/-- Initial state for the C1 round trip: an empty user L4 and a tracker
holding free page indices 5, 6, 7, 8 (so page 5, physical `0x5000`, is the
next allocation). -/
def c1State : KState := ⟨L4T.empty, ⟨1024, [5, 6, 7, 8]⟩⟩

def c1MapRun : Option (Nat × KState) := map_memory 0 0x2000 0x1000 1 c1State

def c1St1 : KState := (c1MapRun.map (·.2)).getD c1State

def c1UnmapRun : Nat × KState := unmap_memory 0 0x2000 0x1000 c1St1

/-- C1 (code evaluated at the failing input): `map_memory(0, 0x2000, 0x1000,
WRITABLE)` succeeds and maps virtual `0x2000` to physical `0x5000` (page
index 5), consuming pages 6, 7, 8 for the directory levels.  The subsequent
`unmap_memory(0, 0x2000, 0x1000)` succeeds and removes the mapping, but the
handler passes the *virtual* address to `mark_as_unused`, so the tracker's
free pool afterwards holds page index `0x2000 / 4096 = 2` — a page the
tracker never handed out — and not the mapped physical page 5 that the
claim requires to be returned. -/
theorem c1_unmap_frees_virtual_page_number :
    c1MapRun.map (·.1) = some 0 ∧
    translate c1St1.l4 0x2000 = some 0x5000 ∧
    c1UnmapRun.1 = 0 ∧
    translate c1UnmapRun.2.l4 0x2000 = none ∧
    c1UnmapRun.2.tracker.free_pages = [2] ∧
    5 ∉ c1UnmapRun.2.tracker.free_pages := by decide

/-- Initial state for C2: one free framebuffer (4096 bytes) and a tracker
with six free pages. -/
def c2State : FbKState :=
  ⟨[{ physical_address := 0xFD000000, width := 1024, height := 1,
      pitch := 4096, color_mode := .Rgb32, owned_by := 0 }],
   ⟨L4T.empty, ⟨1024, [5, 6, 7, 8, 9, 10]⟩⟩⟩

def c2Run1 : Option (Nat × FbKState) := acquire_framebuffer 0 0 0x10000 c2State

def c2St1 : FbKState := (c2Run1.map (·.2)).getD c2State

def c2Run2 : Option (Nat × FbKState) := acquire_framebuffer 0 0 0x10000 c2St1

/-- C2 (code evaluated at the failing input): `acquire_framebuffer(0, 0,
0x10000)` on a free framebuffer returns success — but because only
`process_id == 0` reaches the compare-exchange, the value stored into
`owned_by` is the `process_id` *argument*, i.e. 0, so the framebuffer is
still marked free afterwards, and a second identical `acquire_framebuffer`
also returns success instead of the `CONFLICT` the claim requires. -/
theorem c2_acquire_stores_zero_ownership :
    c2Run1.map (·.1) = some 0 ∧
    (c2St1.fbs[0]?).map Framebuffer.owned_by = some 0 ∧
    c2Run2.map (·.1) = some 0 ∧
    c2Run2.map (·.1) ≠ some SysRes.CONFLICT := by decide

/-- C9: for any index at or beyond the public region's framebuffer count,
`acquire_framebuffer` and `release_framebuffer` (with pid 0) both return
`INVALID_VALUE` and leave the whole state — framebuffer ownership words,
page tables and tracker alike — unchanged. -/
theorem c9_out_of_range_framebuffer_index (st : FbKState) (index at_ : Nat)
    (h : st.fbs.length ≤ index) :
    acquire_framebuffer 0 index at_ st = some (SysRes.INVALID_VALUE, st) ∧
    release_framebuffer 0 index st = (SysRes.INVALID_VALUE, st) := by
  have hg : st.fbs[index]? = none := List.getElem?_eq_none h
  refine ⟨?_, ?_⟩ <;> simp [acquire_framebuffer, release_framebuffer, hg]

/-- Witness for `c9_out_of_range_framebuffer_index` at a concrete state with
one framebuffer and `index = 3`. -/
theorem c9_out_of_range_framebuffer_index_witness :
    c2State.fbs.length ≤ 3 ∧
    (acquire_framebuffer 0 3 0x10000 c2State
        = some (SysRes.INVALID_VALUE, c2State) ∧
     release_framebuffer 0 3 c2State = (SysRes.INVALID_VALUE, c2State)) :=
  ⟨by decide, c9_out_of_range_framebuffer_index c2State 3 0x10000 (by decide)⟩

/-! ## Theorems for claim C10 -/

/-- C10: for a virtual address whose L4→L3→L2→L1 walk path already exists
(directory entries `.table` all the way down, with a `PRESENT` leaf at L1),
a `map_4kib` call for the same address succeeds with *any* allocator —
nothing is allocated and the allocator state `s` is returned unchanged, so
in particular the previously mapped physical page is not returned to any
allocator (the function has no freeing operation at all).  The resulting
tree is exactly the old tree with the three directory entries on the walk
path flag-fused and the L1 leaf overwritten by
`phys | (PRESENT | flags)` — `PRESENT` always set — so no table entry
outside the walk path is modified. -/
theorem c10_remap_overwrites_leaf {σ : Type} (alloc : σ → Option (Nat × σ))
    (l4 : L4T) (virt phys flags : Nat) (s : σ)
    (f3 : Nat) (c3 : L3) (f2 : Nat) (c2 : L2) (f1 : Nat) (c1 : L1)
    (h3 : l4.entries (l4Idx virt) = .table f3 c3)
    (h2 : c3.entries (l3Idx virt) = .table f2 c2)
    (h1 : c2.entries (l2Idx virt) = .table f1 c1)
    (hp : c1.entries (l1Idx virt) &&& PageFlags.PRESENT ≠ 0) :
    map_4kib alloc l4 virt phys flags s =
      .ok (l4.set (l4Idx virt)
        (.table (fuse_flags f3 flags) (c3.set (l3Idx virt)
          (.table (fuse_flags f2 flags) (c2.set (l2Idx virt)
            (.table (fuse_flags f1 flags)
              (c1.set (l1Idx virt)
                (phys ||| (PageFlags.PRESENT ||| flags)))))))), s) ∧
    (phys ||| (PageFlags.PRESENT ||| flags)) &&& PageFlags.PRESENT ≠ 0 ∧
    c1.entries (l1Idx virt) &&& PageFlags.PRESENT ≠ 0 := by
  refine ⟨?_, ?_, hp⟩
  · simp only [map_4kib, dirL4, dirL3, dirL2, h3, h2, h1]
  · intro hz
    rw [Nat.and_distrib_right] at hz
    have h1z := (lor_eq_zero hz).2
    rw [Nat.and_distrib_right] at h1z
    have h2z := (lor_eq_zero h1z).1
    exact absurd h2z (by decide)

/-- A concrete one-page address space for the `c10` witness: virtual page 0
maps to physical `0x5000` with `PRESENT | WRITABLE`, through directory
entries with flag bits 3. -/
def c10c1 : L1 :=
  L1.set L1.empty 0 (0x5000 ||| (PageFlags.PRESENT ||| PageFlags.WRITABLE))
def c10c2 : L2 := L2.set L2.empty 0 (.table 3 c10c1)
def c10c3 : L3 := L3.set L3.empty 0 (.table 3 c10c2)
def c10l4 : L4T := L4T.set L4T.empty 0 (.table 3 c10c3)

/-- Witness for `c10_remap_overwrites_leaf`: remap virtual address 0 (already
mapped to `0x5000`) to `0x7000` with an allocator that always fails — the
call still succeeds and rewrites exactly the walk path. -/
theorem c10_remap_overwrites_leaf_witness :
    (c10l4.entries (l4Idx 0) = .table 3 c10c3 ∧
     c10c3.entries (l3Idx 0) = .table 3 c10c2 ∧
     c10c2.entries (l2Idx 0) = .table 3 c10c1 ∧
     c10c1.entries (l1Idx 0) &&& PageFlags.PRESENT ≠ 0) ∧
    (map_4kib (fun (_ : Unit) => none) c10l4 0 0x7000 PageFlags.WRITABLE () =
      .ok (c10l4.set (l4Idx 0)
        (.table (fuse_flags 3 PageFlags.WRITABLE) (c10c3.set (l3Idx 0)
          (.table (fuse_flags 3 PageFlags.WRITABLE) (c10c2.set (l2Idx 0)
            (.table (fuse_flags 3 PageFlags.WRITABLE)
              (c10c1.set (l1Idx 0)
                (0x7000 ||| (PageFlags.PRESENT ||| PageFlags.WRITABLE)))))))),
        ()) ∧
     (0x7000 ||| (PageFlags.PRESENT ||| PageFlags.WRITABLE)) &&&
        PageFlags.PRESENT ≠ 0 ∧
     c10c1.entries (l1Idx 0) &&& PageFlags.PRESENT ≠ 0) :=
  ⟨⟨rfl, rfl, rfl, by decide⟩,
   c10_remap_overwrites_leaf (fun (_ : Unit) => none) c10l4 0 0x7000
     PageFlags.WRITABLE () 3 c10c3 3 c10c2 3 c10c1 rfl rfl rfl (by decide)⟩

/-! ## Theorems for claim C8

An interleaved sequence of `mark_as_unused`/`allocate` calls on a
`MemoryTracker` is modelled as a list of operations; `runTracker` replays
them, recording each call's result (`some a` for a successful `allocate`
returning address `a`, `none` otherwise; a failed `allocate` leaves the
tracker unchanged, as in the source). -/

inductive TrackerOp where
  | free (page : Nat)
  | alloc
  deriving Repr, DecidableEq

/-- Replay a call sequence, returning the result of each call. -/
def runTracker (t : MemoryTracker) : List TrackerOp → List (Option Nat)
  | [] => []
  | .free p :: ops => none :: runTracker (t.mark_as_unused p) ops
  | .alloc :: ops =>
    match t.allocate with
    | none => none :: runTracker t ops
    | some (a, t1) => some a :: runTracker t1 ops

/-- The tracker state after one `allocate` call. -/
def allocStep (t : MemoryTracker) : MemoryTracker :=
  match t.allocate with
  | none => t
  | some (_, t1) => t1

/-- The list of page indices handed out so far, extended by one `allocate`
call. -/
def allocHanded (t : MemoryTracker) (handed : List Nat) : List Nat :=
  match t.allocate with
  | none => handed
  | some (a, _) => a / PAGE_SIZE :: handed

/-- The hypotheses of claim C8, per call, replayed along the sequence.
`seeds` are the page indices initially seeded into the tracker (each at
most once — `seeds.Nodup` at the top level) and `handed` accumulates the
indices returned by `allocate` so far.  A `free page` call requires that
`page` be page-aligned, that its index not currently be in the free pool
(`mark_as_unused`'s documented precondition: the page "must not already be
registered"), and that it was previously allocated or initially seeded. -/
inductive ValidTrace (seeds : List Nat) :
    List Nat → MemoryTracker → List TrackerOp → Prop where
  | nil {handed t} : ValidTrace seeds handed t []
  | alloc {handed t ops} :
      ValidTrace seeds (allocHanded t handed) (allocStep t) ops →
      ValidTrace seeds handed t (.alloc :: ops)
  | free {handed t p ops} :
      p % PAGE_SIZE = 0 →
      p / PAGE_SIZE ∉ t.free_pages →
      (p / PAGE_SIZE ∈ handed ∨ p / PAGE_SIZE ∈ seeds) →
      ValidTrace seeds handed (t.mark_as_unused p) ops →
      ValidTrace seeds handed t (.free p :: ops)

/-- Inversion for a successful `MemoryTracker.allocate`. -/
theorem allocate_eq_some {t t1 : MemoryTracker} {a : Nat}
    (h : t.allocate = some (a, t1)) :
    ∃ i rest, t.free_pages = i :: rest ∧ a = i * PAGE_SIZE ∧
      t1 = { t with free_pages := rest } := by
  cases t with
  | mk pc free =>
    cases free with
    | nil => simp [MemoryTracker.allocate] at h
    | cons i rest =>
      simp only [MemoryTracker.allocate, Option.some.injEq, Prod.mk.injEq] at h
      exact ⟨i, rest, rfl, h.1.symm, h.2.symm⟩

/-- Once a page index is out of the free pool, a valid sequence cannot make
`allocate` return its address again before a `free` of that page. -/
theorem runTracker_no_resurrection (seeds : List Nat) :
    ∀ (ops : List TrackerOp) (handed : List Nat) (t : MemoryTracker)
      (idx : Nat),
      ValidTrace seeds handed t ops →
      idx ∉ t.free_pages →
      ∀ (j : Nat), (runTracker t ops)[j]? = some (some (idx * PAGE_SIZE)) →
        ∃ k, k < j ∧ ops[k]? = some (TrackerOp.free (idx * PAGE_SIZE)) := by
  intro ops
  induction ops with
  | nil =>
    intro handed t idx _ _ j hj
    simp [runTracker] at hj
  | cons op ops ih =>
    intro handed t idx hv hnotin j hj
    cases hv with
    | alloc hv' =>
      cases hall : t.allocate with
      | none =>
        simp only [runTracker, hall] at hj
        cases j with
        | zero => simp at hj
        | succ j =>
          simp only [List.getElem?_cons_succ] at hj
          have hstep : allocStep t = t := by simp [allocStep, hall]
          have hh : allocHanded t handed = handed := by simp [allocHanded, hall]
          rw [hstep, hh] at hv'
          obtain ⟨k, hk, hop⟩ := ih handed t idx hv' hnotin j hj
          exact ⟨k + 1, by omega, by simpa using hop⟩
      | some res =>
        obtain ⟨a, t1⟩ := res
        obtain ⟨i, rest, hfp, ha, ht1⟩ := allocate_eq_some hall
        simp only [runTracker, hall] at hj
        cases j with
        | zero =>
          simp only [List.getElem?_cons_zero, Option.some.injEq] at hj
          -- `allocate` popped the head of the free list, so the returned
          -- index was in the pool — contradicting `idx ∉ t.free_pages`.
          exfalso
          apply hnotin
          have hi : i = idx := by
            apply Nat.eq_of_mul_eq_mul_right (show 0 < PAGE_SIZE by decide)
            omega
          rw [hfp, hi]
          exact List.mem_cons_self idx rest
        | succ j =>
          simp only [List.getElem?_cons_succ] at hj
          have hstep : allocStep t = t1 := by simp [allocStep, hall]
          have hh : allocHanded t handed = a / PAGE_SIZE :: handed := by
            simp [allocHanded, hall]
          rw [hstep, hh] at hv'
          have hnotin1 : idx ∉ t1.free_pages := by
            rw [ht1]
            intro hmem
            exact hnotin (by rw [hfp]; exact List.mem_cons_of_mem i hmem)
          obtain ⟨k, hk, hop⟩ := ih _ t1 idx hv' hnotin1 j hj
          exact ⟨k + 1, by omega, by simpa using hop⟩
    | free ha hni hprev hv' =>
      rename_i p
      simp only [runTracker] at hj
      cases j with
      | zero => simp at hj
      | succ j =>
        simp only [List.getElem?_cons_succ] at hj
        by_cases hpi : p / PAGE_SIZE = idx
        · refine ⟨0, by omega, ?_⟩
          have hp : p = idx * PAGE_SIZE := by
            have hd := Nat.div_add_mod p PAGE_SIZE
            simp only [PAGE_SIZE] at ha hpi hd ⊢
            omega
          simp [hp]
        · have hnotin1 : idx ∉ (t.mark_as_unused p).free_pages := by
            simp only [MemoryTracker.mark_as_unused, List.mem_cons]
            rintro (h | h)
            · exact hpi h.symm
            · exact hnotin h
          obtain ⟨k, hk, hop⟩ := ih handed _ idx hv' hnotin1 j hj
          exact ⟨k + 1, by omega, by simpa using hop⟩

/-- Along a valid trace whose free pool, handed-out list and seeds all hold
indices below `pc`, every address `allocate` returns is below
`pc * PAGE_SIZE`. -/
theorem runTracker_bounds (seeds : List Nat) (pc : Nat)
    (hseed : ∀ i ∈ seeds, i < pc) :
    ∀ (ops : List TrackerOp) (handed : List Nat) (t : MemoryTracker),
      ValidTrace seeds handed t ops →
      (∀ i ∈ t.free_pages, i < pc) →
      (∀ i ∈ handed, i < pc) →
      ∀ (j a : Nat), (runTracker t ops)[j]? = some (some a) →
        a < pc * PAGE_SIZE := by
  intro ops
  induction ops with
  | nil =>
    intro handed t _ _ _ j a hj
    simp [runTracker] at hj
  | cons op ops ih =>
    intro handed t hv hfree hhand j a hj
    cases hv with
    | alloc hv' =>
      cases hall : t.allocate with
      | none =>
        simp only [runTracker, hall] at hj
        cases j with
        | zero => simp at hj
        | succ j =>
          simp only [List.getElem?_cons_succ] at hj
          have hstep : allocStep t = t := by simp [allocStep, hall]
          have hh : allocHanded t handed = handed := by simp [allocHanded, hall]
          rw [hstep, hh] at hv'
          exact ih handed t hv' hfree hhand j a hj
      | some res =>
        obtain ⟨a0, t1⟩ := res
        obtain ⟨i, rest, hfp, ha, ht1⟩ := allocate_eq_some hall
        have hi : i < pc := hfree i (by rw [hfp]; exact List.mem_cons_self i rest)
        simp only [runTracker, hall] at hj
        cases j with
        | zero =>
          simp only [List.getElem?_cons_zero, Option.some.injEq] at hj
          have : a = i * PAGE_SIZE := by omega
          rw [this]
          exact Nat.mul_lt_mul_of_lt_of_le hi (Nat.le_refl _) (by decide)
        | succ j =>
          simp only [List.getElem?_cons_succ] at hj
          have hstep : allocStep t = t1 := by simp [allocStep, hall]
          have hh : allocHanded t handed = a0 / PAGE_SIZE :: handed := by
            simp [allocHanded, hall]
          rw [hstep, hh] at hv'
          have hfree1 : ∀ x ∈ t1.free_pages, x < pc := by
            intro x hx
            rw [ht1] at hx
            exact hfree x (by rw [hfp]; exact List.mem_cons_of_mem i hx)
          have hhand1 : ∀ x ∈ a0 / PAGE_SIZE :: handed, x < pc := by
            intro x hx
            rcases List.mem_cons.mp hx with h | h
            · have : a0 / PAGE_SIZE = i := by
                rw [ha]
                exact Nat.mul_div_cancel i (by decide)
              omega
            · exact hhand x h
          exact ih _ t1 hv' hfree1 hhand1 j a hj
    | free hpa hni hprev hv' =>
      rename_i p
      simp only [runTracker] at hj
      cases j with
      | zero => simp at hj
      | succ j =>
        simp only [List.getElem?_cons_succ] at hj
        have hfree1 : ∀ x ∈ (t.mark_as_unused p).free_pages, x < pc := by
          intro x hx
          simp only [MemoryTracker.mark_as_unused, List.mem_cons] at hx
          rcases hx with h | h
          · rcases hprev with hh | hh
            · have := hhand _ hh; omega
            · have := hseed _ hh; omega
          · exact hfree x h
        exact ih handed _ hv' hfree1 hhand j a hj

/-- Along a valid trace with a duplicate-free free pool, `allocate` never
returns the same address at two positions without an intervening
`mark_as_unused` of that address between them. -/
theorem runTracker_no_reuse (seeds : List Nat) :
    ∀ (ops : List TrackerOp) (handed : List Nat) (t : MemoryTracker),
      ValidTrace seeds handed t ops →
      t.free_pages.Nodup →
      ∀ (i j a : Nat), i < j →
        (runTracker t ops)[i]? = some (some a) →
        (runTracker t ops)[j]? = some (some a) →
        ∃ k, i < k ∧ k < j ∧ ops[k]? = some (TrackerOp.free a) := by
  intro ops
  induction ops with
  | nil =>
    intro handed t _ _ i j a _ hi _
    simp [runTracker] at hi
  | cons op ops ih =>
    intro handed t hv hnd i j a hij hi hj
    cases hv with
    | alloc hv' =>
      cases hall : t.allocate with
      | none =>
        simp only [runTracker, hall] at hi hj
        cases i with
        | zero => simp at hi
        | succ i =>
          cases j with
          | zero => omega
          | succ j =>
            simp only [List.getElem?_cons_succ] at hi hj
            have hstep : allocStep t = t := by simp [allocStep, hall]
            have hh : allocHanded t handed = handed := by simp [allocHanded, hall]
            rw [hstep, hh] at hv'
            obtain ⟨k, hk1, hk2, hop⟩ :=
              ih handed t hv' hnd i j a (by omega) hi hj
            exact ⟨k + 1, by omega, by omega, by simpa using hop⟩
      | some res =>
        obtain ⟨a0, t1⟩ := res
        obtain ⟨idx0, rest, hfp, ha, ht1⟩ := allocate_eq_some hall
        have hstep : allocStep t = t1 := by simp [allocStep, hall]
        have hh : allocHanded t handed = a0 / PAGE_SIZE :: handed := by
          simp [allocHanded, hall]
        have hv1 : ValidTrace seeds (a0 / PAGE_SIZE :: handed) t1 ops := by
          rwa [hstep, hh] at hv'
        have hnd1 : t1.free_pages.Nodup := by
          rw [ht1]
          rw [hfp] at hnd
          exact (List.nodup_cons.mp hnd).2
        simp only [runTracker, hall] at hi hj
        cases i with
        | zero =>
          simp only [List.getElem?_cons_zero, Option.some.injEq] at hi
          -- the popped head is no longer in the pool: apply no-resurrection
          have hnotin : idx0 ∉ t1.free_pages := by
            rw [ht1]
            rw [hfp] at hnd
            exact (List.nodup_cons.mp hnd).1
          cases j with
          | zero => omega
          | succ j =>
            simp only [List.getElem?_cons_succ] at hj
            have haa : a = idx0 * PAGE_SIZE := by omega
            have hja : (runTracker t1 ops)[j]? = some (some (idx0 * PAGE_SIZE)) := by
              rw [← haa]; exact hj
            obtain ⟨k, hk, hop⟩ :=
              runTracker_no_resurrection seeds ops _ t1 idx0 hv1 hnotin j hja
            refine ⟨k + 1, by omega, by omega, ?_⟩
            rw [haa]
            simpa using hop
        | succ i =>
          cases j with
          | zero => omega
          | succ j =>
            simp only [List.getElem?_cons_succ] at hi hj
            obtain ⟨k, hk1, hk2, hop⟩ :=
              ih _ t1 hv1 hnd1 i j a (by omega) hi hj
            exact ⟨k + 1, by omega, by omega, by simpa using hop⟩
    | free hpa hni hprev hv' =>
      rename_i p
      simp only [runTracker] at hi hj
      cases i with
      | zero => simp at hi
      | succ i =>
        cases j with
        | zero => omega
        | succ j =>
          simp only [List.getElem?_cons_succ] at hi hj
          have hnd1 : (t.mark_as_unused p).free_pages.Nodup := by
            simp only [MemoryTracker.mark_as_unused]
            exact List.nodup_cons.mpr ⟨hni, hnd⟩
          obtain ⟨k, hk1, hk2, hop⟩ :=
            ih handed _ hv' hnd1 i j a (by omega) hi hj
          exact ⟨k + 1, by omega, by omega, by simpa using hop⟩

/-- C8: for every interleaved `mark_as_unused`/`allocate` sequence on a
`MemoryTracker` seeded with duplicate-free page indices below `page_count`,
in which every freed page was previously allocated or initially seeded, is
page-aligned, and is not currently in the free pool (the tracker's
documented precondition), and freed/seeded indices are below `page_count`:
`allocate` never returns the same page twice without an intervening
`mark_as_unused` of that page, and every address it returns lies in
`[0, page_count * PAGE_SIZE)`. -/
theorem c8_tracker_allocation_sound (pc : Nat) (seeds : List Nat)
    (ops : List TrackerOp)
    (hnodup : seeds.Nodup) (hseed : ∀ i ∈ seeds, i < pc)
    (hv : ValidTrace seeds [] ⟨pc, seeds⟩ ops) :
    (∀ (j a : Nat), (runTracker ⟨pc, seeds⟩ ops)[j]? = some (some a) →
      a < pc * PAGE_SIZE) ∧
    (∀ (i j a : Nat), i < j →
      (runTracker ⟨pc, seeds⟩ ops)[i]? = some (some a) →
      (runTracker ⟨pc, seeds⟩ ops)[j]? = some (some a) →
      ∃ k, i < k ∧ k < j ∧ ops[k]? = some (TrackerOp.free a)) := by
  constructor
  · exact runTracker_bounds seeds pc hseed ops [] ⟨pc, seeds⟩ hv hseed
      (by intro i h; simp at h)
  · exact runTracker_no_reuse seeds ops [] ⟨pc, seeds⟩ hv hnodup

/-- Witness for `c8_tracker_allocation_sound`: seeds `[1, 2]` with
`page_count = 4` and the sequence `allocate; mark_as_unused(0x1000);
allocate` (the freed page 1 was returned by the first `allocate`). -/
theorem c8_tracker_allocation_sound_witness :
    (([1, 2] : List Nat).Nodup ∧ (∀ i ∈ ([1, 2] : List Nat), i < 4) ∧
     ValidTrace [1, 2] [] ⟨4, [1, 2]⟩
       [TrackerOp.alloc, TrackerOp.free 4096, TrackerOp.alloc]) ∧
    ((∀ (j a : Nat),
        (runTracker ⟨4, [1, 2]⟩
          [TrackerOp.alloc, TrackerOp.free 4096, TrackerOp.alloc])[j]?
            = some (some a) → a < 4 * PAGE_SIZE) ∧
     (∀ (i j a : Nat), i < j →
        (runTracker ⟨4, [1, 2]⟩
          [TrackerOp.alloc, TrackerOp.free 4096, TrackerOp.alloc])[i]?
            = some (some a) →
        (runTracker ⟨4, [1, 2]⟩
          [TrackerOp.alloc, TrackerOp.free 4096, TrackerOp.alloc])[j]?
            = some (some a) →
        ∃ k, i < k ∧ k < j ∧
          [TrackerOp.alloc, TrackerOp.free 4096, TrackerOp.alloc][k]?
            = some (TrackerOp.free a))) := by
  have hval : ValidTrace [1, 2] [] ⟨4, [1, 2]⟩
      [TrackerOp.alloc, TrackerOp.free 4096, TrackerOp.alloc] := by
    apply ValidTrace.alloc
    apply ValidTrace.free (by decide) (by decide) (by decide)
    apply ValidTrace.alloc
    exact ValidTrace.nil
  exact ⟨⟨by decide, by decide, hval⟩,
    c8_tracker_allocation_sound 4 [1, 2] _ (by decide) (by decide) hval⟩

/-! ## Theorems for claim C7 -/

/-- A page allocator that never fails: it returns pages 0, 1, 2, … and
counts in its state. -/
def allocN : Nat → Option (Nat × Nat) := fun s => some (s, s + 1)

/-- `create_direct_map` applied to an empty L4 with
`(phys, virt, size, flags) = (0, 0, TWO_MIB, WRITABLE)`. -/
def c7MapRangeRun : Except MapErr (L4T × Nat) :=
  create_direct_map allocN L4T.empty 0 0 TWO_MIB 2 0

/-- `size / 4096 = 512` calls to `map_4kib` with the same arguments. -/
def c7MapPagesRun : Except MapErr (L4T × Nat) :=
  mapPages allocN L4T.empty 0 0 (TWO_MIB / PAGE_SIZE) 2 0

/-- The mapping relation of a run's resulting tree at `v` (`none` when the
run failed). -/
def translateOfRun (r : Except MapErr (L4T × Nat)) (v : Nat) : Option (Option Nat) :=
  match r with
  | .error _ => none
  | .ok (t, _) => some (translate t v)

/-- The tree after the first (2 MiB) iteration of `c7MapRangeRun`: directory
entries at L4 index 0 and L3 index 0, and a `HUGE` 2 MiB leaf at L2
index 0. -/
def c7Tree1 : L4T :=
  L4T.set L4T.empty (l4Idx 0) (.table (PageFlags.PRESENT ||| 2)
    (L3.set L3.empty (l3Idx 0) (.table (PageFlags.PRESENT ||| 2)
      (L2.set L2.empty (l2Idx 0)
        (.page (0 ||| (PageFlags.PRESENT ||| PageFlags.HUGE ||| 2)))))))

set_option maxRecDepth 100000 in
/-- C7 (counterexample / code evaluated at the failing input): with
`(phys, virt, size) = (0, 0, TWO_MIB)` — page-aligned, size a multiple of
4096 — `map_range` maps one 2 MiB chunk, the remaining size becomes 0, and
the loop's `else` branch still runs once more, mapping one *extra* 4 KiB
page at `virt + size = TWO_MIB` before the `size <= FOUR_KIB` break; the
512 `map_4kib` calls leave `TWO_MIB` unmapped.  The two
virtual-to-physical relations therefore differ at `v = TWO_MIB`. -/
theorem c7_map_range_maps_extra_page :
    translateOfRun c7MapRangeRun TWO_MIB = some (some TWO_MIB) ∧
    translateOfRun c7MapPagesRun TWO_MIB = some none ∧
    translateOfRun c7MapRangeRun TWO_MIB ≠ translateOfRun c7MapPagesRun TWO_MIB := by
  have hrange : translateOfRun c7MapRangeRun TWO_MIB = some (some TWO_MIB) := by
    rw [c7MapRangeRun, create_direct_map]
    rw [cdmLoop.eq_def]
    norm_num [ONE_GIB, TWO_MIB]
    have hm2 : map_2mib allocN L4T.empty 0 0 2 0 = Except.ok (c7Tree1, 2) := by rfl
    rw [hm2]
    show translateOfRun (cdmLoop allocN c7Tree1 2097152 2097152 0 2 2) 2097152
      = some (some 2097152)
    rw [cdmLoop.eq_def]
    norm_num [ONE_GIB, TWO_MIB]
    decide
  have hpages : translateOfRun c7MapPagesRun TWO_MIB = some none := by decide
  exact ⟨hrange, hpages, by rw [hrange, hpages]; decide⟩

end Fabric

